import Mathlib

/-!
Verification development for the oil-pipeline anomaly detection repository.

The repository couples a Next.js frontend (src/lib/api.ts,
src/hooks/use-analysis.ts and the component files under src/unnamed) to a
Python backend under scripts/ that is not part of the repository snapshot.
Definitions below taken from the frontend sources are translated directly;
definitions for the backend pipeline carry a doc comment starting with
"Modelled from the spec:" and follow the specification's wording for the
missing scripts.
-/

namespace OilPipeline

/-- Run status of the analysis pipeline: the four values of the status field
of AnalysisStatus in src/lib/api.ts. -/
inductive RunStatus
  | idle
  | running
  | completed
  | error
deriving DecidableEq

/-- String form of a run status as it appears on the wire. -/
def statusName : RunStatus → String
  | .idle => "idle"
  | .running => "running"
  | .completed => "completed"
  | .error => "error"

/-- Results payload of a completed run, with the fields the dashboard reads in
src/unnamed/part_002 (trueAnomalies, falseAnomalyExclusionRate). -/
structure RunResults where
  trueAnomalies : Nat
  falseAnomalyExclusionRate : ℚ
deriving DecidableEq

/-- AnalysisStatus record of src/lib/api.ts lines 14-20: status, progress,
current_step, plus optional results and error fields. -/
structure AnalysisStatus where
  status : RunStatus
  progress : Int
  current_step : String
  results : Option RunResults := none
  errorField : Option String := none
deriving DecidableEq

/-- Local state of the useAnalysis hook (src/hooks/use-analysis.ts): the
polled status plus the separately kept results and error values. -/
structure HookState where
  status : AnalysisStatus
  results : Option RunResults
  errorMsg : Option String
deriving DecidableEq

/-- resetAnalysis of src/hooks/use-analysis.ts lines 57-65: sets the status to
idle with progress 0 and an empty current step, and clears results and
error. -/
def resetAnalysis (_s : HookState) : HookState :=
  { status := { status := .idle, progress := 0, current_step := "" }
  , results := none
  , errorMsg := none }

/-- Guard of the Run Analysis button in src/unnamed/part_002 line 81 (and the
Start Detection button in src/unnamed/part_001 line 1069): disabled exactly
while the status is running. -/
def runButtonDisabled (s : AnalysisStatus) : Bool :=
  decide (s.status = .running)

/-- Visibility of the Reset button in src/unnamed/part_002 lines 84-88: the
button is rendered whenever the status is not idle. -/
def resetButtonVisible (s : AnalysisStatus) : Bool :=
  decide (s.status ≠ .idle)

/-- JSON-like value held by one configuration key. -/
inductive ConfigValue
  | str (s : String)
  | num (q : ℚ)
  | boolVal (b : Bool)
deriving DecidableEq

/-- Modelled from the spec: the flat configuration record of section 6, one
field per documented key of the start_analysis contract (the backend that
consumes it, scripts/api_server.py, is not in the repository; the key set
matches AnalysisConfig in src/lib/api.ts lines 3-12 plus the optional
distance_metric). -/
structure AnalysisConfig where
  kernel : String
  nu : ℚ
  gamma : String
  window_size : ℚ
  n_clusters : ℚ
  linkage : String
  variance_threshold : ℚ
  correlation_threshold : ℚ
  distance_metric : String
deriving DecidableEq

/-- Modelled from the spec: the documented defaults of section 6 — kernel rbf,
nu 0.05, gamma auto, window_size 400, n_clusters 10, linkage ward,
variance_threshold 0.1, correlation_threshold 0.7; the distance metric
defaults to euclidean as in the clustering panel of src/unnamed/part_001. -/
def defaultConfig : AnalysisConfig :=
  { kernel := "rbf", nu := 1/20, gamma := "auto", window_size := 400
  , n_clusters := 10, linkage := "ward", variance_threshold := 1/10
  , correlation_threshold := 7/10, distance_metric := "euclidean" }

/-- Value stored under a key in a raw key-value configuration, reading the
first occurrence. -/
def lookupKey (kvs : List (String × ConfigValue)) (k : String) : Option ConfigValue :=
  (kvs.find? (fun kv => kv.1 == k)).map (fun kv => kv.2)

/-- String read of a configuration key, falling back to the default when the
key is missing or holds a non-string value. -/
def lookupStr (kvs : List (String × ConfigValue)) (k : String) (d : String) : String :=
  match lookupKey kvs k with
  | some (.str s) => s
  | _ => d

/-- Numeric read of a configuration key, falling back to the default when the
key is missing or holds a non-numeric value. -/
def lookupNum (kvs : List (String × ConfigValue)) (k : String) (d : ℚ) : ℚ :=
  match lookupKey kvs k with
  | some (.num q) => q
  | _ => d

/-- Modelled from the spec: the configuration keys the start_analysis contract
of section 6 recognises. -/
def knownKeys : List String :=
  ["kernel", "nu", "gamma", "window_size", "n_clusters", "linkage",
   "variance_threshold", "correlation_threshold", "distance_metric"]

/-- Modelled from the spec: parsing a raw key-value configuration — each
documented key is read with its documented default, and no key outside
knownKeys is ever consulted (scripts/api_server.py is not in the
repository). -/
def parseConfig (kvs : List (String × ConfigValue)) : AnalysisConfig :=
  { kernel := lookupStr kvs "kernel" defaultConfig.kernel
  , nu := lookupNum kvs "nu" defaultConfig.nu
  , gamma := lookupStr kvs "gamma" defaultConfig.gamma
  , window_size := lookupNum kvs "window_size" defaultConfig.window_size
  , n_clusters := lookupNum kvs "n_clusters" defaultConfig.n_clusters
  , linkage := lookupStr kvs "linkage" defaultConfig.linkage
  , variance_threshold := lookupNum kvs "variance_threshold" defaultConfig.variance_threshold
  , correlation_threshold := lookupNum kvs "correlation_threshold" defaultConfig.correlation_threshold
  , distance_metric := lookupStr kvs "distance_metric" defaultConfig.distance_metric }

/-- Kernels the boundary classifier accepts (section 4.2 and the kernel
selector of src/unnamed/part_001). -/
def validKernels : List String := ["linear", "rbf", "poly", "sigmoid"]

/-- Linkage methods the cluster filter accepts (section 4.3). -/
def validLinkages : List String := ["ward", "complete", "average", "single"]

/-- Distance metrics the cluster filter accepts (section 4.3). -/
def validMetrics : List String := ["euclidean", "manhattan", "cosine", "correlation"]

/-- Modelled from the spec: section 7 configuration validation — nu inside
(0, 0.5], n_clusters at least 2, and kernel, linkage and distance metric drawn
from the enumerated sets. -/
def validConfig (c : AnalysisConfig) : Bool :=
  decide (0 < c.nu) && decide (c.nu ≤ 1/2) && decide (2 ≤ c.n_clusters)
    && validKernels.contains c.kernel
    && validLinkages.contains c.linkage
    && validMetrics.contains c.distance_metric

/-- Modelled from the spec: the pipeline context of section 4.5 — status of
the state machine, progress between 0 and 100, human-readable current step,
and the results and error message of the last run (scripts/api_server.py is
not in the repository). -/
structure PipelineContext where
  status : RunStatus
  progress : Int
  currentStep : String
  results : Option RunResults
  errorMsg : Option String
deriving DecidableEq

/-- Initial pipeline context: idle, progress 0, no step, no results, no
error. -/
def initialContext : PipelineContext :=
  { status := .idle, progress := 0, currentStep := "", results := none, errorMsg := none }

/-- Outcome of a start_analysis request: accepted, or rejected with a
message. -/
inductive StartOutcome
  | accepted
  | rejected (msg : String)
deriving DecidableEq

/-- Modelled from the spec: start_analysis of sections 4.5 and 7 — a request
while the context is already running is rejected without queueing, an invalid
configuration is rejected before any stage executes, and otherwise the context
moves to running with progress 0 and a fresh run. -/
def startAnalysis (ctx : PipelineContext) (c : AnalysisConfig) :
    PipelineContext × StartOutcome :=
  if ctx.status = .running then (ctx, .rejected "Analysis already running")
  else if validConfig c then
    ({ status := .running, progress := 0, currentStep := "Data Preprocessing"
     , results := none, errorMsg := none }, .accepted)
  else (ctx, .rejected "Invalid configuration")

/-- Labels of the five pipeline stages as displayed by the detector
(src/unnamed/part_001 lines 1000-1006). -/
def stageNames : List String :=
  ["Data Preprocessing", "One-Class SVM Training", "Anomaly Detection",
   "Hierarchical Clustering", "Multi-source Analysis"]

/-- Modelled from the spec: the orchestrator events of section 4.5 — a start
request, completion of one of the five stages, successful completion with
results, failure of a stage, and a reset request. -/
inductive PipelineEvent
  | start (c : AnalysisConfig)
  | stageDone (i : Fin 5)
  | finish (r : RunResults)
  | fail (msg : String)
  | reset

/-- Modelled from the spec: one orchestrator transition of section 4.5.
Completing stage i of 5 while running raises progress monotonically to
20 * (i + 1) and updates the step label; success moves to completed with
progress 100, storing the results; a stage failure moves to error keeping the
message; reset returns a terminal state to the initial idle context. -/
def stepContext (ctx : PipelineContext) : PipelineEvent → PipelineContext
  | .start c => (startAnalysis ctx c).1
  | .stageDone i =>
      if ctx.status = .running then
        { ctx with
            progress := max ctx.progress (20 * ((i : ℕ) + 1)),
            currentStep := stageNames.getD (i : ℕ) ctx.currentStep }
      else ctx
  | .finish r =>
      if ctx.status = .running then
        { status := .completed, progress := 100, currentStep := "Analysis completed"
        , results := some r, errorMsg := none }
      else ctx
  | .fail m =>
      if ctx.status = .running then
        { ctx with status := .error, errorMsg := some m }
      else ctx
  | .reset =>
      if ctx.status = .completed ∨ ctx.status = .error then initialContext else ctx

/-- Pipeline contexts reachable from the initial idle context under the
orchestrator's transitions. -/
inductive ReachableContext : PipelineContext → Prop
  | init : ReachableContext initialContext
  | step (e : PipelineEvent) {ctx : PipelineContext} :
      ReachableContext ctx → ReachableContext (stepContext ctx e)

/-- Modelled from the spec: the get_status response of section 6 — the
context's status, progress and current step, with its optional results and
error values. -/
def getStatus (ctx : PipelineContext) : AnalysisStatus :=
  { status := ctx.status, progress := ctx.progress, current_step := ctx.currentStep
  , results := ctx.results, errorField := ctx.errorMsg }

/-- Sample of the data model (section 3): a raw or interpolated reading of
timestamp, pressure and pump frequency. -/
structure Sample where
  timestamp : ℚ
  pressure : ℚ
  frequency : ℚ
deriving DecidableEq

/-- Candidate of the data model (section 3): a window flagged anomalous by the
boundary classifier, carrying its window index, the window's samples and the
signed decision score. -/
structure Candidate where
  windowIndex : Nat
  samples : List Sample
  score : ℚ
deriving DecidableEq

/-- Modelled from the spec: section 4.2 inference — a scored window becomes a
Candidate exactly when its signed decision score is negative
(scripts/one_class_svm_detector.py is not in the repository). -/
def svmFlagged (scored : List Candidate) : List Candidate :=
  scored.filter (fun c => decide (c.score < 0))

/-- Aggregate classification of one cluster (section 4.3). -/
inductive ClusterLabel
  | leak
  | operational
deriving DecidableEq

/-- Modelled from the spec: the two thresholds of the section 4.3 relabeling
rule — the significance threshold on the members' mean decision-score
magnitude and the density threshold on the member count. Their numeric values
are not documented, so they stay parameters of the run. -/
structure ClusterRuleConfig where
  sigThreshold : ℚ
  densityThreshold : Nat
deriving DecidableEq

/-- Members of the cluster a candidate belongs to, under a deterministic
assignment of candidates to cluster ids. -/
def clusterMembers (assign : Candidate → Nat) (cands : List Candidate)
    (c : Candidate) : List Candidate :=
  cands.filter (fun d => decide (assign d = assign c))

/-- Modelled from the spec: the section 4.3 decision rule — a cluster is
labeled leak when its members' mean score magnitude exceeds the significance
threshold and its member count is below the density threshold; otherwise it is
labeled operational. The mean comparison is written as
threshold * count < sum of magnitudes to stay inside the rationals. -/
def clusterLabelOf (rule : ClusterRuleConfig) (members : List Candidate) : ClusterLabel :=
  if rule.sigThreshold * members.length < (members.map (fun c => |c.score|)).sum
      ∧ members.length < rule.densityThreshold
  then .leak else .operational

/-- Modelled from the spec: section 4.3 — every candidate in an operational
cluster is reclassified false_anomaly and removed; candidates in leak clusters
proceed to the correlator (scripts/hierarchical_clustering.py is not in the
repository). -/
def clusterFilter (rule : ClusterRuleConfig) (assign : Candidate → Nat)
    (cands : List Candidate) : List Candidate :=
  cands.filter (fun c => decide (clusterLabelOf rule (clusterMembers assign cands c) = .leak))

/-- Scaled variance: for a list of n values, n^2 times the population
variance, kept inside the rationals. -/
def svar (xs : List ℚ) : ℚ :=
  (xs.length : ℚ) * (xs.map (fun x => x * x)).sum - xs.sum * xs.sum

/-- Scaled covariance: n^2 times the population covariance of two equal-length
lists. -/
def scov (xs ys : List ℚ) : ℚ :=
  (xs.length : ℚ) * ((xs.zip ys).map (fun p => p.1 * p.2)).sum - xs.sum * ys.sum

/-- Modelled from the spec: the section 4.4 reclassification test on one
candidate's window — frequency variance below variance_threshold and absolute
pressure-frequency correlation above correlation_threshold. Both comparisons
are scaled to avoid division and square roots: variance < t iff
svar < t * n^2, and for a nonnegative threshold the absolute correlation
exceeds t iff scov^2 > t^2 * svarP * svarF; when either variance is zero the
correlation is undefined and the rule does not fire, which the scaled form
also gives since the covariance is then zero. -/
def correlatorFires (vth cth : ℚ) (samples : List Sample) : Bool :=
  let ps := samples.map (fun s => s.pressure)
  let fs := samples.map (fun s => s.frequency)
  let n : ℚ := samples.length
  decide (svar fs < vth * (n * n)
    ∧ scov ps fs * scov ps fs > cth * cth * (svar ps * svar fs))

/-- Modelled from the spec: section 4.4 — surviving candidates whose window
satisfies the reclassification test are relabeled false_anomaly and removed;
all others are retained as true anomalies. -/
def correlatorFilter (vth cth : ℚ) (cands : List Candidate) : List Candidate :=
  cands.filter (fun c => ! correlatorFires vth cth c.samples)

/-- Modelled from the spec: the staged refinement of section 2 — the boundary
classifier's flagged set, narrowed by the cluster filter and then by the
multi-source correlator. -/
def finalAnomalySet (rule : ClusterRuleConfig) (assign : Candidate → Nat)
    (vth cth : ℚ) (scored : List Candidate) : List Candidate :=
  correlatorFilter vth cth (clusterFilter rule assign (svmFlagged scored))

/-- Modelled from the spec: a candidate overlaps a true leak when its window
index is one of the known ground-truth leak windows of the synthetic
series. -/
def overlapsLeak (leakWindows : List Nat) (c : Candidate) : Bool :=
  leakWindows.contains c.windowIndex

/-- Modelled from the spec: recall equals 1 on a run exactly when every
flagged candidate overlapping a ground-truth leak window survives to the final
anomaly set. -/
def recallIsOne (rule : ClusterRuleConfig) (assign : Candidate → Nat)
    (vth cth : ℚ) (leakWindows : List Nat) (scored : List Candidate) : Prop :=
  ∀ c ∈ svmFlagged scored, overlapsLeak leakWindows c = true →
    c ∈ finalAnomalySet rule assign vth cth scored

/-- Classification of one exported sample (section 6 and the PipelineData
interface of src/unnamed/part_000 lines 13-19). -/
inductive AnomalyType
  | normal
  | leak
  | operational
deriving DecidableEq

/-- Name of an anomaly type as written in exported rows. -/
def anomalyTypeName : AnomalyType → String
  | .normal => "normal"
  | .leak => "leak"
  | .operational => "operational"

/-- Modelled from the spec: one row of the csv export of section 6, with the
five documented fields; the field set matches the PipelineData interface of
src/unnamed/part_000 (scripts/generate_pipeline_data.py and the download
endpoint are not in the repository). -/
structure ExportRow where
  time : ℚ
  pressure : ℚ
  frequency : ℚ
  is_anomaly : Bool
  anomaly_type : AnomalyType
deriving DecidableEq

/-- Modelled from the spec: the header of the exported csv, naming the five
documented fields in order. -/
def csvHeader : List String :=
  ["time", "pressure", "frequency", "is_anomaly", "anomaly_type"]

/-- Modelled from the spec: the cells of one exported row, one per documented
field in header order. -/
def rowCells (r : ExportRow) : List String :=
  [toString r.time, toString r.pressure, toString r.frequency,
   if r.is_anomaly then "true" else "false", anomalyTypeName r.anomaly_type]

/-- Modelled from the spec: the csv export of section 6 — the header row
followed by one cell row per data row. -/
def exportCsv (rows : List ExportRow) : List (List String) :=
  csvHeader :: rows.map rowCells

/-- Row of generated pipeline data as the statistics code of
src/unnamed/part_000 reads it: the anomaly type is a plain string field of the
dynamically typed row. -/
structure DataRow where
  time : ℚ
  pressure : ℚ
  frequency : ℚ
  is_anomaly : Bool
  anomaly_type : String
deriving DecidableEq

/-- Dataset statistics of src/unnamed/part_000 lines 77-82: total row count
and the counts of rows whose anomaly type is normal, leak and operational. -/
structure DataStats where
  total : Nat
  normal : Nat
  leaks : Nat
  operational : Nat
deriving DecidableEq

/-- The stats object of src/unnamed/part_000 lines 77-82, one filter per
anomaly type. -/
def computeStats (data : List DataRow) : DataStats :=
  { total := data.length
  , normal := (data.filter (fun d => d.anomaly_type == "normal")).length
  , leaks := (data.filter (fun d => d.anomaly_type == "leak")).length
  , operational := (data.filter (fun d => d.anomaly_type == "operational")).length }

/-- JSON value as produced by parsing a response body. -/
inductive JsonVal
  | nullV
  | boolV (b : Bool)
  | numV (q : ℚ)
  | strV (s : String)
  | arrV (xs : List JsonVal)
  | objV (fields : List (String × JsonVal))

/-- Property read on a parsed non-null JSON value: the first binding of the
key when the value is an object, undefined — here nothing — for any other
non-null value. Property access on null throws a TypeError in JavaScript, so
the null case is handled at the access site in request, never here. -/
def jsonGet (v : JsonVal) (key : String) : Option JsonVal :=
  match v with
  | .objV fields => (fields.find? (fun kv => kv.1 == key)).map (fun kv => kv.2)
  | _ => none

/-- Truthiness of a JSON value under JavaScript coercion: null, false, zero
and the empty string are falsy; every other value is truthy. -/
def jsTruthy : JsonVal → Bool
  | .nullV => false
  | .boolV b => b
  | .numV q => decide (q ≠ 0)
  | .strV s => !s.isEmpty
  | .arrV _ => true
  | .objV _ => true

/-- An HTTP response as ApiClient.request observes it: the ok flag, the
numeric status code, and the JSON body when the body parses. -/
structure MockResponse where
  ok : Bool
  status : Nat
  body : Option JsonVal

/-- Outcome of the request helper: the parsed body of an ok response, a thrown
Error with a known message, a thrown Error whose message is the JavaScript
string coercion of a non-string error value (JSON numbers are IEEE doubles,
whose decimal rendering is left abstract rather than asserted), a TypeError
thrown by reading a property of a null body, or a propagated body-parse
failure on an ok response. -/
inductive RequestOutcome
  | success (body : JsonVal)
  | thrownMsg (msg : String)
  | thrownCoerced (v : JsonVal)
  | thrownTypeError
  | parseFailure

/-- ApiClient.request of src/lib/api.ts lines 31-48: an ok response returns
its parsed JSON body, and a parse failure there propagates; a non-ok response
parses the body, substituting an object whose error property is the string
Network error when parsing fails. A body parsing to JSON null makes the read
of its error property itself throw a TypeError. Otherwise the helper throws
an Error whose message is the error property when that property is a truthy
string, an Error carrying the string coercion of the property when it is
truthy but not a string, and an Error with message HTTP followed by the
status code when the property is absent or falsy. -/
def request (r : MockResponse) : RequestOutcome :=
  if r.ok then
    match r.body with
    | some v => .success v
    | none => .parseFailure
  else
    let errObj := r.body.getD (.objV [("error", .strV "Network error")])
    match errObj with
    | .nullV => .thrownTypeError
    | _ =>
      match jsonGet errObj "error" with
      | some v =>
        if jsTruthy v then
          match v with
          | .strV s => .thrownMsg s
          | _ => .thrownCoerced v
        else .thrownMsg ("HTTP " ++ toString r.status)
      | none => .thrownMsg ("HTTP " ++ toString r.status)

/-- Outcome the amended claim C9 describes for a non-ok response, stated by
cases on the body: Network error when the body does not parse, a TypeError
when it parses to null, the server-supplied error field when it parses to a
value holding a truthy string error property, the coercion of a truthy
non-string error property, and HTTP with the status code in every remaining
case. -/
def claimedOutcome (r : MockResponse) : RequestOutcome :=
  match r.body with
  | none => .thrownMsg "Network error"
  | some .nullV => .thrownTypeError
  | some b =>
    match jsonGet b "error" with
    | some (.strV s) =>
        if s.isEmpty then .thrownMsg ("HTTP " ++ toString r.status) else .thrownMsg s
    | some v => if jsTruthy v then .thrownCoerced v else .thrownMsg ("HTTP " ++ toString r.status)
    | none => .thrownMsg ("HTTP " ++ toString r.status)

/-- A non-ok response whose body parses to JSON null: reading its error
property throws a TypeError in the source. -/
def nullBodyResponse : MockResponse :=
  { ok := false, status := 500, body := some .nullV }

/-- Window samples for the recall counterexample: pressure 0, 1, 2 paired with
frequency 0, 0.1, 0.2 — the frequency variance 1/150 is below the default
variance threshold 0.1 while the pressure-frequency correlation is exactly 1,
above the default correlation threshold 0.7. -/
def leakWindowSamples : List Sample :=
  [ { timestamp := 0, pressure := 0, frequency := 0 }
  , { timestamp := 2, pressure := 1, frequency := 1/10 }
  , { timestamp := 4, pressure := 2, frequency := 2/10 } ]

/-- Flagged candidate of the recall counterexample, sitting in ground-truth
leak window 0 with decision score -1. -/
def leakCandidate : Candidate :=
  { windowIndex := 0, samples := leakWindowSamples, score := -1 }

/-- Cluster rule of the recall counterexample: significance threshold 1/2 with
density threshold 2, so the singleton cluster holding the leak candidate is
labeled leak and the candidate reaches the correlator. -/
def cexClusterRule : ClusterRuleConfig :=
  { sigThreshold := 1/2, densityThreshold := 2 }

/-- Window samples with idle pressure but strongly varying frequency: the
correlator test does not fire on them. -/
def retainedSamples : List Sample :=
  [ { timestamp := 0, pressure := 0, frequency := 0 }
  , { timestamp := 2, pressure := 0, frequency := 1 }
  , { timestamp := 4, pressure := 0, frequency := 2 } ]

/-- Flagged candidate that survives both refinement stages under the
counterexample's cluster rule. -/
def retainedCandidate : Candidate :=
  { windowIndex := 3, samples := retainedSamples, score := -2 }

/-- Pipeline context in the running state, as observed mid-run. -/
def runningContext : PipelineContext :=
  { status := .running, progress := 40, currentStep := "Anomaly Detection"
  , results := none, errorMsg := none }

/-- Status value in the running state, as the frontend sees it while
polling. -/
def runningStatus : AnalysisStatus :=
  { status := .running, progress := 40, current_step := "Anomaly Detection" }

/-- Configuration equal to the defaults except for nu = 1, which lies outside
the valid interval (0, 0.5]. -/
def badNuConfig : AnalysisConfig :=
  { defaultConfig with nu := 1 }

/-- One exported row used to instantiate the export theorem. -/
def sampleRow : ExportRow :=
  { time := 0, pressure := 23/10, frequency := 30, is_anomaly := true
  , anomaly_type := .leak }

/-- Small generated dataset with one row of each anomaly type. -/
def sampleData : List DataRow :=
  [ { time := 0, pressure := 2, frequency := 30, is_anomaly := false, anomaly_type := "normal" }
  , { time := 2, pressure := 1, frequency := 30, is_anomaly := true, anomaly_type := "leak" }
  , { time := 4, pressure := 2, frequency := 35, is_anomaly := true, anomaly_type := "operational" } ]

/-- Claim C2: for every run and every configuration the final anomaly set is a
subset of the set flagged by the boundary classifier — the cluster filter and
the multi-source correlator only remove candidates and never add one. -/
theorem final_subset_flagged (rule : ClusterRuleConfig) (assign : Candidate → Nat)
    (vth cth : ℚ) (scored : List Candidate) (c : Candidate)
    (h : c ∈ finalAnomalySet rule assign vth cth scored) :
    c ∈ svmFlagged scored := by
  unfold finalAnomalySet correlatorFilter clusterFilter at h
  exact (List.mem_filter.1 (List.mem_filter.1 h).1).1

/-- Witness for claim C2 at a concrete run with one surviving candidate. -/
theorem final_subset_flagged_witness :
    retainedCandidate ∈ svmFlagged [retainedCandidate] :=
  final_subset_flagged cexClusterRule (fun _ => 0) (1/10) (7/10)
    [retainedCandidate] retainedCandidate
    (by norm_num [finalAnomalySet, correlatorFilter, clusterFilter, svmFlagged,
      clusterMembers, clusterLabelOf, correlatorFires, svar, scov,
      retainedCandidate, retainedSamples, cexClusterRule, List.mem_filter])

/-- Claim C1 counterexample: a synthetic run under the documented default
thresholds (variance 0.1, correlation 0.7) in which the only flagged candidate
lies in the ground-truth leak window 0 and its cluster is labeled leak, yet
the multi-source correlator reclassifies it false_anomaly because its window
has frequency variance 1/150 with pressure-frequency correlation 1 — so
recall is not 1. -/
theorem recall_counterexample :
    ¬ recallIsOne cexClusterRule (fun _ => 0) (1/10) (7/10) [0] [leakCandidate] := by
  intro h
  have hm : leakCandidate ∈ svmFlagged [leakCandidate] := by
    norm_num [svmFlagged, leakCandidate, List.mem_filter]
  have ho : overlapsLeak [0] leakCandidate = true := by
    simp [overlapsLeak, leakCandidate]
  have hfin := h leakCandidate hm ho
  revert hfin
  norm_num [finalAnomalySet, correlatorFilter, clusterFilter, svmFlagged,
    clusterMembers, clusterLabelOf, correlatorFires, svar, scov,
    leakCandidate, leakWindowSamples, cexClusterRule, List.mem_filter]

/-- Claim C1 amended: a flagged candidate is retained in the final anomaly set
exactly when its cluster is labeled leak and the correlator test does not fire
on its window; recall 1 therefore holds exactly on runs where every flagged
candidate overlapping a true leak meets both conditions, and is not an
unconditional consequence of the default configuration. -/
theorem leak_retention (rule : ClusterRuleConfig) (assign : Candidate → Nat)
    (vth cth : ℚ) (scored : List Candidate) (c : Candidate)
    (hf : c ∈ svmFlagged scored) :
    c ∈ finalAnomalySet rule assign vth cth scored ↔
      (clusterLabelOf rule (clusterMembers assign (svmFlagged scored) c) = .leak
        ∧ correlatorFires vth cth c.samples = false) := by
  unfold finalAnomalySet correlatorFilter clusterFilter
  simp [List.mem_filter, hf]
  exact and_comm

/-- Witness for the amended claim C1 at a concrete flagged candidate. -/
theorem leak_retention_witness :
    retainedCandidate ∈ finalAnomalySet cexClusterRule (fun _ => 0) (1/10) (7/10)
        [retainedCandidate] ↔
      (clusterLabelOf cexClusterRule
          (clusterMembers (fun _ => 0) (svmFlagged [retainedCandidate]) retainedCandidate) = .leak
        ∧ correlatorFires (1/10) (7/10) retainedCandidate.samples = false) :=
  leak_retention cexClusterRule (fun _ => 0) (1/10) (7/10)
    [retainedCandidate] retainedCandidate
    (by norm_num [svmFlagged, retainedCandidate, List.mem_filter])

/-- Claim C3: while the pipeline context is running, a start request is
rejected with the context unchanged — so at most one running instance exists —
and the frontend's run control is disabled. -/
theorem start_rejected_while_running (ctx : PipelineContext) (c : AnalysisConfig)
    (h : ctx.status = .running) :
    startAnalysis ctx c = (ctx, .rejected "Analysis already running")
    ∧ runButtonDisabled (getStatus ctx) = true := by
  constructor
  · unfold startAnalysis
    rw [if_pos h]
  · simp [runButtonDisabled, getStatus, h]

/-- Witness for claim C3 at a concrete running context. -/
theorem start_rejected_while_running_witness :
    startAnalysis runningContext defaultConfig
      = (runningContext, .rejected "Analysis already running")
    ∧ runButtonDisabled (getStatus runningContext) = true :=
  start_rejected_while_running runningContext defaultConfig rfl

/-- Claim C4 counterexample: the reset control is enabled in the running
state, which is neither of the terminal states completed and error, so reset
is not enabled exactly from the terminal states. -/
theorem reset_enabled_from_running :
    resetButtonVisible runningStatus = true
    ∧ runningStatus.status ≠ .completed ∧ runningStatus.status ≠ .error := by
  refine ⟨?_, by simp [runningStatus], by simp [runningStatus]⟩
  simp [resetButtonVisible, runningStatus]

/-- Claim C4 amended: the reset control is enabled from every state other than
idle — running as well as the terminals completed and error — and resetting
returns the analysis to idle with progress 0, an empty current step, and no
retained results or error. -/
theorem reset_behaviour (s : HookState) :
    (resetButtonVisible s.status = true ↔ s.status.status ≠ .idle)
    ∧ (resetAnalysis s).status.status = .idle
    ∧ (resetAnalysis s).status.progress = 0
    ∧ (resetAnalysis s).status.current_step = ""
    ∧ (resetAnalysis s).results = none
    ∧ (resetAnalysis s).errorMsg = none := by
  refine ⟨?_, rfl, rfl, rfl, rfl, rfl⟩
  simp [resetButtonVisible]

/-- Dropping the entries whose key fails a predicate does not change a lookup
for a key the predicate accepts. -/
theorem lookupKey_filter (kvs : List (String × ConfigValue)) (p : String → Bool)
    (k : String) (hp : p k = true) :
    lookupKey (kvs.filter (fun kv => p kv.1)) k = lookupKey kvs k := by
  induction kvs with
  | nil => rfl
  | cons kv rest ih =>
    by_cases hpk : p kv.1 = true
    · by_cases hk : (kv.1 == k) = true
      · simp [lookupKey, List.filter_cons, hpk, List.find?_cons, hk]
      · simpa [lookupKey, List.filter_cons, hpk, List.find?_cons, hk] using ih
    · have hk : (kv.1 == k) = false := by
        cases hbk : (kv.1 == k) with
        | false => rfl
        | true =>
          have heq : kv.1 = k := by simpa using hbk
          rw [heq] at hpk
          exact absurd hp hpk
      simpa [lookupKey, List.filter_cons, hpk, List.find?_cons, hk] using ih

/-- A string read depends on the raw configuration only through the key's
lookup. -/
theorem lookupStr_congr (l l' : List (String × ConfigValue)) (k d : String)
    (h : lookupKey l k = lookupKey l' k) : lookupStr l k d = lookupStr l' k d := by
  unfold lookupStr
  rw [h]

/-- A numeric read depends on the raw configuration only through the key's
lookup. -/
theorem lookupNum_congr (l l' : List (String × ConfigValue)) (k : String) (d : ℚ)
    (h : lookupKey l k = lookupKey l' k) : lookupNum l k d = lookupNum l' k d := by
  unfold lookupNum
  rw [h]

/-- A missing key makes a string read return its default. -/
theorem lookupStr_default (l : List (String × ConfigValue)) (k d : String)
    (h : lookupKey l k = none) : lookupStr l k d = d := by
  unfold lookupStr
  rw [h]

/-- A missing key makes a numeric read return its default. -/
theorem lookupNum_default (l : List (String × ConfigValue)) (k : String) (d : ℚ)
    (h : lookupKey l k = none) : lookupNum l k d = d := by
  unfold lookupNum
  rw [h]

/-- Claim C5: an empty configuration parses to the documented defaults, keys
outside the known set never affect the parsed configuration, and each missing
documented key individually takes its documented default. -/
theorem parse_defaults_and_unknown_keys (kvs : List (String × ConfigValue)) :
    parseConfig [] = defaultConfig
    ∧ parseConfig (kvs.filter (fun kv => knownKeys.contains kv.1)) = parseConfig kvs
    ∧ (lookupKey kvs "kernel" = none → (parseConfig kvs).kernel = "rbf")
    ∧ (lookupKey kvs "nu" = none → (parseConfig kvs).nu = 1/20)
    ∧ (lookupKey kvs "gamma" = none → (parseConfig kvs).gamma = "auto")
    ∧ (lookupKey kvs "window_size" = none → (parseConfig kvs).window_size = 400)
    ∧ (lookupKey kvs "n_clusters" = none → (parseConfig kvs).n_clusters = 10)
    ∧ (lookupKey kvs "linkage" = none → (parseConfig kvs).linkage = "ward")
    ∧ (lookupKey kvs "variance_threshold" = none →
        (parseConfig kvs).variance_threshold = 1/10)
    ∧ (lookupKey kvs "correlation_threshold" = none →
        (parseConfig kvs).correlation_threshold = 7/10) := by
  refine ⟨rfl, ?_,
    fun h => lookupStr_default kvs _ _ h,
    fun h => lookupNum_default kvs _ _ h,
    fun h => lookupStr_default kvs _ _ h,
    fun h => lookupNum_default kvs _ _ h,
    fun h => lookupNum_default kvs _ _ h,
    fun h => lookupStr_default kvs _ _ h,
    fun h => lookupNum_default kvs _ _ h,
    fun h => lookupNum_default kvs _ _ h⟩
  unfold parseConfig
  rw [lookupStr_congr _ kvs _ _ (lookupKey_filter kvs _ _ (by decide)),
    lookupNum_congr _ kvs _ _ (lookupKey_filter kvs _ _ (by decide)),
    lookupStr_congr _ kvs _ _ (lookupKey_filter kvs _ _ (by decide)),
    lookupNum_congr _ kvs _ _ (lookupKey_filter kvs _ _ (by decide)),
    lookupNum_congr _ kvs _ _ (lookupKey_filter kvs _ _ (by decide)),
    lookupStr_congr _ kvs _ _ (lookupKey_filter kvs _ _ (by decide)),
    lookupNum_congr _ kvs _ _ (lookupKey_filter kvs _ _ (by decide)),
    lookupNum_congr _ kvs _ _ (lookupKey_filter kvs _ _ (by decide)),
    lookupStr_congr _ kvs _ _ (lookupKey_filter kvs _ _ (by decide))]

/-- Claim C6: a configuration with nu outside (0, 0.5], or fewer than 2
clusters, or a kernel, linkage or distance metric outside the enumerated sets,
makes start_analysis leave the context unchanged — so it never transitions to
running — and answer with a rejection. -/
theorem invalid_config_rejected (ctx : PipelineContext) (c : AnalysisConfig)
    (h : ¬ (0 < c.nu ∧ c.nu ≤ 1/2) ∨ c.n_clusters < 2
       ∨ validKernels.contains c.kernel = false
       ∨ validLinkages.contains c.linkage = false
       ∨ validMetrics.contains c.distance_metric = false) :
    (startAnalysis ctx c).1 = ctx
    ∧ ∃ m, (startAnalysis ctx c).2 = .rejected m := by
  have hv : ¬ (validConfig c = true) := by
    intro hvc
    unfold validConfig at hvc
    simp only [Bool.and_eq_true, decide_eq_true_eq] at hvc
    obtain ⟨⟨⟨⟨⟨h1, h2⟩, h3⟩, h4⟩, h5⟩, h6⟩ := hvc
    rcases h with h | h | h | h | h
    · exact h ⟨h1, h2⟩
    · exact absurd h3 (not_le.mpr h)
    · rw [h] at h4
      exact Bool.false_ne_true h4
    · rw [h] at h5
      exact Bool.false_ne_true h5
    · rw [h] at h6
      exact Bool.false_ne_true h6
  unfold startAnalysis
  by_cases hr : ctx.status = .running
  · rw [if_pos hr]
    exact ⟨rfl, "Analysis already running", rfl⟩
  · rw [if_neg hr, if_neg hv]
    exact ⟨rfl, "Invalid configuration", rfl⟩

/-- Witness for claim C6 at the idle context with nu = 1. -/
theorem invalid_config_rejected_witness :
    (startAnalysis initialContext badNuConfig).1 = initialContext
    ∧ ∃ m, (startAnalysis initialContext badNuConfig).2 = .rejected m :=
  invalid_config_rejected initialContext badNuConfig
    (Or.inl (by intro hcon; norm_num [badNuConfig, defaultConfig] at hcon))

/-- The wire form of any run status is one of the four documented values. -/
theorem statusName_mem (s : RunStatus) :
    statusName s ∈ ["idle", "running", "completed", "error"] := by
  cases s <;> simp [statusName]

/-- One orchestrator transition keeps progress inside 0..100. -/
theorem progress_invariant_step (ctx : PipelineContext) (e : PipelineEvent)
    (h0 : 0 ≤ ctx.progress) (h1 : ctx.progress ≤ 100) :
    0 ≤ (stepContext ctx e).progress ∧ (stepContext ctx e).progress ≤ 100 := by
  cases e with
  | start c =>
    unfold stepContext startAnalysis
    by_cases hr : ctx.status = .running
    · simp only [if_pos hr]
      exact ⟨h0, h1⟩
    · by_cases hvc : validConfig c = true
      · simp only [if_neg hr, if_pos hvc]
        norm_num
      · simp only [if_neg hr, if_neg hvc]
        exact ⟨h0, h1⟩
  | stageDone i =>
    unfold stepContext
    by_cases hr : ctx.status = .running
    · simp only [if_pos hr]
      have hi := i.isLt
      constructor
      · exact le_trans h0 (le_max_left _ _)
      · refine max_le h1 ?_
        omega
    · simp only [if_neg hr]
      exact ⟨h0, h1⟩
  | finish r =>
    unfold stepContext
    by_cases hr : ctx.status = .running
    · simp only [if_pos hr]
      norm_num
    · simp only [if_neg hr]
      exact ⟨h0, h1⟩
  | fail m =>
    unfold stepContext
    by_cases hr : ctx.status = .running
    · simp only [if_pos hr]
      exact ⟨h0, h1⟩
    · simp only [if_neg hr]
      exact ⟨h0, h1⟩
  | reset =>
    unfold stepContext
    by_cases ht : ctx.status = .completed ∨ ctx.status = .error
    · simp only [if_pos ht]
      norm_num [initialContext]
    · simp only [if_neg ht]
      exact ⟨h0, h1⟩

/-- Claim C7: every get_status response of a reachable pipeline context
carries one of the four documented status values and an integer progress
inside 0..100, next to the current step string and the optional results and
error values. -/
theorem status_response_wellformed (ctx : PipelineContext)
    (h : ReachableContext ctx) :
    statusName (getStatus ctx).status ∈ ["idle", "running", "completed", "error"]
    ∧ 0 ≤ (getStatus ctx).progress ∧ (getStatus ctx).progress ≤ 100 := by
  refine ⟨statusName_mem _, ?_⟩
  induction h with
  | init => norm_num [getStatus, initialContext]
  | step e hr ih => exact progress_invariant_step _ e ih.1 ih.2

/-- Witness for claim C7 at the initial context. -/
theorem status_response_wellformed_witness :
    statusName (getStatus initialContext).status ∈ ["idle", "running", "completed", "error"]
    ∧ 0 ≤ (getStatus initialContext).progress
    ∧ (getStatus initialContext).progress ≤ 100 :=
  status_response_wellformed initialContext ReachableContext.init

/-- Claim C8: every data row of the csv export has exactly as many cells as
the documented five-field header, and its anomaly type cell is normal, leak or
operational. -/
theorem export_rows_wellformed (rows : List ExportRow) (cells : List String)
    (h : cells ∈ (exportCsv rows).tail) :
    cells.length = csvHeader.length
    ∧ cells.getD 4 "" ∈ ["normal", "leak", "operational"] := by
  have hm : cells ∈ rows.map rowCells := by simpa [exportCsv] using h
  obtain ⟨r, hr, rfl⟩ := List.mem_map.1 hm
  refine ⟨rfl, ?_⟩
  cases hty : r.anomaly_type <;> simp [rowCells, anomalyTypeName, hty]

/-- Witness for claim C8 at a one-row export. -/
theorem export_rows_wellformed_witness :
    (rowCells sampleRow).length = csvHeader.length
    ∧ (rowCells sampleRow).getD 4 "" ∈ ["normal", "leak", "operational"] :=
  export_rows_wellformed [sampleRow] (rowCells sampleRow) (by simp [exportCsv])

/-- The outcome the amended claim describes is never a success value. -/
theorem claimedOutcome_ne_success (r : MockResponse) (v : JsonVal) :
    claimedOutcome r ≠ .success v := by
  intro h
  unfold claimedOutcome at h
  repeat' split at h
  all_goals exact RequestOutcome.noConfusion h

/-- Claim C9 counterexample: a non-ok response whose body parses — to JSON
null — on which the source throws a TypeError from the property read at
src/lib/api.ts line 44, not an Error carrying the server-supplied error field,
Network error, or HTTP with the status code. -/
theorem request_null_body_counterexample :
    nullBodyResponse.ok = false
    ∧ nullBodyResponse.body = some .nullV
    ∧ request nullBodyResponse = .thrownTypeError
    ∧ ∀ s, request nullBodyResponse ≠ .thrownMsg s := by
  refine ⟨rfl, rfl, rfl, fun s h => ?_⟩
  exact RequestOutcome.noConfusion h

/-- Claim C9 amended: the request helper returns the parsed JSON body of an
ok response, and on a non-ok response never yields a success value: it throws
with the server-supplied error field when the body parses to a non-null value
whose error property is a truthy string, with the coercion of a truthy
non-string error property, with Network error when the body does not parse,
with HTTP and the status code when the error property is absent or falsy —
and a body parsing to JSON null makes the property read itself throw a
TypeError. -/
theorem request_outcomes (r : MockResponse) :
    (r.ok = true → ∀ v, r.body = some v → request r = .success v)
    ∧ (r.ok = false →
        request r = claimedOutcome r
        ∧ ∀ v, request r ≠ .success v) := by
  constructor
  · intro hok v hb
    unfold request
    simp [hok, hb]
  · intro hok
    have hth : request r = claimedOutcome r := by
      unfold request claimedOutcome
      rw [if_neg (by simp [hok])]
      cases hb : r.body with
      | none =>
        have hne : "Network error".isEmpty = false := by decide
        simp [jsonGet, jsTruthy, hne]
      | some b =>
        simp only [Option.getD_some]
        cases b with
        | nullV => rfl
        | boolV bb => rfl
        | numV q => rfl
        | strV s => rfl
        | arrV xs => rfl
        | objV fields =>
          cases hj : jsonGet (.objV fields) "error" with
          | none => simp [hj]
          | some v =>
            cases v with
            | nullV => simp [hj, jsTruthy]
            | boolV bb => simp [hj]
            | numV q => simp [hj]
            | strV s =>
              by_cases he : s.isEmpty = true
              · simp [hj, jsTruthy, he]
              · simp [hj, jsTruthy, he]
            | arrV xs => simp [hj]
            | objV f2 => simp [hj]
    refine ⟨hth, fun v hv => ?_⟩
    rw [hth] at hv
    exact claimedOutcome_ne_success r v hv

/-- Counting rows by the three anomaly type strings partitions any dataset in
which every row carries one of them. -/
theorem count_partition (data : List DataRow)
    (h : ∀ d ∈ data, d.anomaly_type = "normal" ∨ d.anomaly_type = "leak"
        ∨ d.anomaly_type = "operational") :
    (data.filter (fun d => d.anomaly_type == "normal")).length
      + (data.filter (fun d => d.anomaly_type == "leak")).length
      + (data.filter (fun d => d.anomaly_type == "operational")).length
      = data.length := by
  induction data with
  | nil => rfl
  | cons d rest ih =>
    have hd := h d (List.mem_cons_self d rest)
    have hrest : ∀ x ∈ rest, x.anomaly_type = "normal" ∨ x.anomaly_type = "leak"
        ∨ x.anomaly_type = "operational" :=
      fun x hx => h x (List.mem_cons_of_mem d hx)
    have ihr := ih hrest
    rcases hd with h1 | h1 | h1 <;>
      simp [List.filter_cons, h1] <;> omega

/-- Claim C10: when every row's anomaly type is normal, leak or operational,
the generated statistics partition the dataset — the three counts sum to the
total. -/
theorem stats_partition (data : List DataRow)
    (h : ∀ d ∈ data, d.anomaly_type = "normal" ∨ d.anomaly_type = "leak"
        ∨ d.anomaly_type = "operational") :
    (computeStats data).normal + (computeStats data).leaks
      + (computeStats data).operational = (computeStats data).total := by
  simpa [computeStats] using count_partition data h

/-- Witness for claim C10 at a three-row dataset with one row per type. -/
theorem stats_partition_witness :
    (computeStats sampleData).normal + (computeStats sampleData).leaks
      + (computeStats sampleData).operational = (computeStats sampleData).total :=
  stats_partition sampleData (by
    intro d hd
    fin_cases hd <;> simp [sampleData])

end OilPipeline
